import Mathlib

/-!
Shallow embedding of `src/features_extractor.py` (class `FeatureExtractor`)
and the request schema of `src/server/dto.py`.

Modelling decisions:
  * A pandas `DataFrame` of requests is a `DataFrame` structure: a list of
    intrinsic rows plus one `Option` per column that the extractor reads or
    caches (`cpm`, `delay`, `avg_session_duration`, `history_cpm_mean`,
    `adv_shown_freq`); `none` means "column absent".
  * The delimited text cells `user_ids` / `publishers` are modelled at the
    point after `str.split(',')`: a list of tokens, where a token is
    `some n` when the fragment parses as the integer `n` and `none` when
    `int(...)` would raise `ValueError`.
  * Python exceptions become `Except Err`: `Err.valueError` for the
    `int(...)` parse failure, `Err.keyError` for the missing `cpm` column.
  * Real arithmetic is `Rat` (the float values appearing here are exact
    results of the same field operations), pandas `mean` of an empty
    column followed by the `np.isnan` check is the `0`-default branch.
-/

namespace FeatureExtractor

/-- A fragment of a comma-delimited cell after splitting: `some n` if it
parses as an integer, `none` if `int(...)` raises. -/
abbrev Token := Option Int

/-- One row of the history table (`history.tsv`). -/
structure Event where
  user_id : Int
  hour : Int
  publisher : Int
  cpm : Rat
deriving DecidableEq, Repr

/-- Intrinsic per-request fields the extractor reads row-wise. -/
structure Row where
  user_ids : List Token
  publishers : List Token
  hour_start : Int
  hour_end : Int
deriving DecidableEq, Repr

/-- The request dataframe: rows plus the columns the extractor touches.
`none` models a column absent from `df.columns`. -/
structure DataFrame where
  rows : List Row
  cpm : Option (List Rat)
  delay : Option (List Rat)
  avg_session_duration : Option (List Rat)
  history_cpm_mean : Option (List Rat)
  adv_shown_freq : Option (List Rat)
deriving DecidableEq, Repr

/-- One output record of `get_all_features`, fields in the order of the
feature dict literal. -/
structure FeatureVector where
  p1 : Int
  remaining_time_to_next_ad : Rat
  delay : Rat
  cpm : Rat
  p2 : Int
  avg_session_duration : Rat
  history_cpm_mean : Rat
  adv_shown_freq : Rat
deriving DecidableEq, Repr

/-- Python exceptions the extractor can raise. -/
inductive Err where
  | valueError
  | keyError
deriving DecidableEq, Repr

/-- The request schema of `server/dto.py` (`user_ids` and `publishers`
kept at the post-split token level). -/
structure Request where
  cpm : Rat
  hour_start : Int
  hour_end : Int
  publishers : List Token
  audience_size : Int
  user_ids : List Token
deriving DecidableEq, Repr

/-- `[int(i) for i in cell.split(',')]`: all tokens must parse. -/
def parseInts : List Token → Except Err (List Int)
  | [] => .ok []
  | none :: _ => .error .valueError
  | some n :: ts =>
    match parseInts ts with
    | .error e => .error e
    | .ok vs => .ok (n :: vs)

/-- The integer values of a token list (meaningful when all parse). -/
def idsOf (ts : List Token) : List Int := ts.filterMap id

/-- Every token of the cell parses as an integer. -/
def tokensOk (ts : List Token) : Bool := ts.all Option.isSome

/-- `history[(history['user_id'].isin(ids)) & (history['hour'] < hourStart)]`. -/
def sliceFor (history : List Event) (ids : List Int) (hourStart : Int) :
    List Event :=
  history.filter (fun e => decide (e.user_id ∈ ids) && decide (e.hour < hourStart))

/-- `sorted(...)` on integers. -/
def sortInts (l : List Int) : List Int :=
  List.insertionSort (fun a b => a ≤ b) l

/-- `users_history_shown['cpm'].mean()`, with the `np.isnan` default to 0. -/
def cpmMean (E : List Event) : Rat :=
  if E.length = 0 then 0 else (E.map (·.cpm)).sum / (E.length : Rat)

/-- `publisher.count() / len(users_ids) if len(users_ids) > 0 else 0`. -/
def advShownFreq (E : List Event) (ids : List Int) : Rat :=
  if 0 < ids.length then (E.length : Rat) / (ids.length : Rat) else 0

/-- The rows of the slice belonging to one user (`groupby('user_id')` group). -/
def eventsOfUser (E : List Event) (u : Int) : List Event :=
  E.filter (fun e => decide (e.user_id = u))

/-- The group keys of `groupby('user_id')`: distinct user ids, ascending. -/
def usersOf (E : List Event) : List Int :=
  sortInts (E.map (·.user_id)).dedup

/-- `np.diff` on a list of hours. -/
def gaps : List Int → List Int
  | a :: b :: t => (b - a) :: gaps (b :: t)
  | _ => []

/-- `np.mean(np.diff(hours))` (meaningful when `hours` has ≥ 2 entries). -/
def meanGaps (hs : List Int) : Rat :=
  ((gaps hs).map (fun g => (g : Rat))).sum / ((hs.length : Rat) - 1)

/-- `sorted(group['hour'].unique())` for one user of the slice. -/
def uniqueSortedHours (E : List Event) (u : Int) : List Int :=
  sortInts ((eventsOfUser E u).map (·.hour)).dedup

/-- The loop accumulating `avg_time_between_ads` before the final division:
each user of the slice with more than one distinct hour adds the mean of
its consecutive gaps. -/
def avgTimeBetweenAdsNum (E : List Event) : Rat :=
  ((usersOf E).map (fun u =>
    let hs := uniqueSortedHours E u
    if 1 < hs.length then meanGaps hs else 0)).sum

/-- `avg_time_between_ads /= len(users_ids) if len(users_ids) > 0 else 1`. -/
def avgTimeBetweenAds (E : List Event) (ids : List Int) : Rat :=
  avgTimeBetweenAdsNum E / (if 0 < ids.length then (ids.length : Rat) else 1)

/-- The session loop of `_get_session_info`: `cur` is the current session,
most recent hour first; a gap of more than 6 closes the session. -/
def splitSessions : List Int → List Int → List (List Int)
  | cur, [] => [cur.reverse]
  | cur, h :: rest =>
    match cur with
    | [] => splitSessions [h] rest
    | l :: c =>
      if 6 < h - l then (l :: c).reverse :: splitSessions [h] rest
      else splitSessions (h :: l :: c) rest

/-- Split one user's sorted hours into sessions. -/
def sessionsOf : List Int → List (List Int)
  | [] => []
  | h :: rest => splitSessions [h] rest

/-- Python `max` of a nonempty list of hours. -/
def listMax : List Int → Int
  | [] => 0
  | h :: t => t.foldl max h

/-- Python `min` of a nonempty list of hours. -/
def listMin : List Int → Int
  | [] => 0
  | h :: t => t.foldl min h

/-- `max(session) - min(session)`. -/
def sessionDuration (s : List Int) : Int := listMax s - listMin s

/-- `group.sort_values('hour')['hour']` for one user of the slice
(duplicates kept). -/
def userSortedHours (E : List Event) (u : Int) : List Int :=
  sortInts ((eventsOfUser E u).map (·.hour))

/-- The accumulation of `total_duration` and `session_count` over the
per-user groups of the slice. -/
def totalSessionStats (E : List Event) : Int × Nat :=
  (usersOf E).foldl (fun acc u =>
    let ss := sessionsOf (userSortedHours E u)
    (acc.1 + (ss.map sessionDuration).sum, acc.2 + ss.length)) (0, 0)

/-- `total_duration / session_count if session_count > 0 else 0`. -/
def avgSessionDuration (E : List Event) : Rat :=
  let st := totalSessionStats E
  if 0 < st.2 then (st.1 : Rat) / (st.2 : Rat) else 0

/-- The per-row loop body of `_get_history_info` (the three history
features of one request row). -/
structure HistInfoRow where
  history_cpm_mean : Rat
  adv_shown_freq : Rat
  avg_time_between_ads : Rat
deriving DecidableEq, Repr

/-- One iteration of `_get_history_info`: parse `user_ids`, filter the
history, compute the three statistics. -/
def historyInfoRow (history : List Event) (r : Row) : Except Err HistInfoRow :=
  match parseInts r.user_ids with
  | .error e => .error e
  | .ok ids =>
    let E := sliceFor history ids r.hour_start
    .ok { history_cpm_mean := cpmMean E
          adv_shown_freq := advShownFreq E ids
          avg_time_between_ads := avgTimeBetweenAds E ids }

/-- A Python for-loop that appends one result per row and propagates the
first raised exception. -/
def mapE (f : α → Except Err β) : List α → Except Err (List β)
  | [] => .ok []
  | a :: t =>
    match f a with
    | .error e => .error e
    | .ok b =>
      match mapE f t with
      | .error e => .error e
      | .ok bs => .ok (b :: bs)

/-- `FeatureExtractor._get_history_info` (the row loop over `df`). -/
def get_history_info (history : List Event) (rows : List Row) :
    Except Err (List HistInfoRow) :=
  mapE (historyInfoRow history) rows

/-- One iteration of `_get_session_info`: parse `user_ids`, filter the
history, average the session durations. -/
def sessionInfoRow (history : List Event) (r : Row) : Except Err Rat :=
  match parseInts r.user_ids with
  | .error e => .error e
  | .ok ids => .ok (avgSessionDuration (sliceFor history ids r.hour_start))

/-- `FeatureExtractor._get_session_info`. -/
def get_session_info (history : List Event) (rows : List Row) :
    Except Err (List Rat) :=
  mapE (sessionInfoRow history) rows

/-- One iteration of `get_p1`: parse `publishers`, test `1 in publishers`. -/
def p1Row (r : Row) : Except Err Int :=
  match parseInts r.publishers with
  | .error e => .error e
  | .ok ps => .ok (if 1 ∈ ps then 1 else 0)

/-- `FeatureExtractor.get_p1`. -/
def get_p1 (rows : List Row) : Except Err (List Int) := mapE p1Row rows

/-- One iteration of `get_p2`: parse `publishers`, test `2 in publishers`. -/
def p2Row (r : Row) : Except Err Int :=
  match parseInts r.publishers with
  | .error e => .error e
  | .ok ps => .ok (if 2 ∈ ps then 1 else 0)

/-- `FeatureExtractor.get_p2`. -/
def get_p2 (rows : List Row) : Except Err (List Int) := mapE p2Row rows

/-- `FeatureExtractor.get_delay`: returns the cached `delay` column if it
exists, otherwise computes `hour_end - hour_start` and writes it back. -/
def get_delay (df : DataFrame) : List Rat × DataFrame :=
  match df.delay with
  | some c => (c, df)
  | none =>
    let c := df.rows.map (fun r => ((r.hour_end - r.hour_start : Int) : Rat))
    (c, { df with delay := some c })

/-- `FeatureExtractor.get_remaining_time_to_next_ad`:
`(delay - history_info['avg_time_between_ads']).clip(lower=0)`. -/
def get_remaining_time_to_next_ad (history : List Event) (df : DataFrame) :
    Except Err (List Rat) × DataFrame :=
  let p := get_delay df
  match get_history_info history p.2.rows with
  | .error e => (.error e, p.2)
  | .ok his =>
    (.ok (List.zipWith (fun d hi => max 0 (d - hi.avg_time_between_ads)) p.1 his),
     p.2)

/-- `FeatureExtractor.get_cpm`: raises `KeyError` when the `cpm` column is
absent. -/
def get_cpm (df : DataFrame) : Except Err (List Rat) :=
  match df.cpm with
  | none => .error .keyError
  | some c => .ok c

/-- `FeatureExtractor.get_avg_session_duration`: computes and caches the
column only when absent. -/
def get_avg_session_duration (history : List Event) (df : DataFrame) :
    Except Err (List Rat) × DataFrame :=
  match df.avg_session_duration with
  | some c => (.ok c, df)
  | none =>
    match get_session_info history df.rows with
    | .error e => (.error e, df)
    | .ok c => (.ok c, { df with avg_session_duration := some c })

/-- `FeatureExtractor.get_history_cpm_mean`: always recomputes
`_get_history_info`, then caches the column only when absent. -/
def get_history_cpm_mean (history : List Event) (df : DataFrame) :
    Except Err (List Rat) × DataFrame :=
  match get_history_info history df.rows with
  | .error e => (.error e, df)
  | .ok his =>
    match df.history_cpm_mean with
    | some c => (.ok c, df)
    | none =>
      let c := his.map (·.history_cpm_mean)
      (.ok c, { df with history_cpm_mean := some c })

/-- `FeatureExtractor.get_adv_shown_freq`: always recomputes
`_get_history_info`, then caches the column only when absent. -/
def get_adv_shown_freq (history : List Event) (df : DataFrame) :
    Except Err (List Rat) × DataFrame :=
  match get_history_info history df.rows with
  | .error e => (.error e, df)
  | .ok his =>
    match df.adv_shown_freq with
    | some c => (.ok c, df)
    | none =>
      let c := his.map (·.adv_shown_freq)
      (.ok c, { df with adv_shown_freq := some c })

/-- `pd.DataFrame(features)`: align the eight feature columns row-wise. -/
def assemble : List Int → List Rat → List Rat → List Rat → List Int →
    List Rat → List Rat → List Rat → List FeatureVector
  | a1 :: t1, a2 :: t2, a3 :: t3, a4 :: t4, a5 :: t5, a6 :: t6, a7 :: t7,
    a8 :: t8 =>
      ⟨a1, a2, a3, a4, a5, a6, a7, a8⟩ :: assemble t1 t2 t3 t4 t5 t6 t7 t8
  | _, _, _, _, _, _, _, _ => []

/-- `FeatureExtractor.get_all_features`: the feature dict literal is
evaluated left to right; the first raised exception aborts the call, and
mutations performed before it persist on the dataframe. -/
def get_all_features (history : List Event) (df : DataFrame) :
    Except Err (List FeatureVector) × DataFrame :=
  match get_p1 df.rows with
  | .error e => (.error e, df)
  | .ok c1 =>
    match get_remaining_time_to_next_ad history df with
    | (.error e, df1) => (.error e, df1)
    | (.ok c2, df1) =>
      let p3 := get_delay df1
      match get_cpm p3.2 with
      | .error e => (.error e, p3.2)
      | .ok c4 =>
        match get_p2 p3.2.rows with
        | .error e => (.error e, p3.2)
        | .ok c5 =>
          match get_avg_session_duration history p3.2 with
          | (.error e, df3) => (.error e, df3)
          | (.ok c6, df3) =>
            match get_history_cpm_mean history df3 with
            | (.error e, df4) => (.error e, df4)
            | (.ok c7, df4) =>
              match get_adv_shown_freq history df4 with
              | (.error e, df5) => (.error e, df5)
              | (.ok c8, df5) =>
                (.ok (assemble c1 c2 p3.1 c4 c5 c6 c7 c8), df5)

/-- The intrinsic row of one request. -/
def Request.row (q : Request) : Row :=
  { user_ids := q.user_ids, publishers := q.publishers,
    hour_start := q.hour_start, hour_end := q.hour_end }

/-- Build the dataframe `pd.DataFrame([r.model_dump() for r in requests])`
the extractor receives: intrinsic columns present, computed columns absent. -/
def DataFrame.fromRequests (reqs : List Request) : DataFrame where
  rows := reqs.map Request.row
  cpm := some (reqs.map (·.cpm))
  delay := none
  avg_session_duration := none
  history_cpm_mean := none
  adv_shown_freq := none

/-- The feature vector of one request, written as the pure per-row meaning
of the pipeline (proved equal to the batch computation below). -/
def requestFV (history : List Event) (q : Request) : FeatureVector :=
  let ids := idsOf q.user_ids
  let E := sliceFor history ids q.hour_start
  let ps := idsOf q.publishers
  let d : Rat := ((q.hour_end - q.hour_start : Int) : Rat)
  { p1 := if 1 ∈ ps then 1 else 0
    remaining_time_to_next_ad := max 0 (d - avgTimeBetweenAds E ids)
    delay := d
    cpm := q.cpm
    p2 := if 2 ∈ ps then 1 else 0
    avg_session_duration := avgSessionDuration E
    history_cpm_mean := cpmMean E
    adv_shown_freq := advShownFreq E ids }

/-! ### Parsing and loop lemmas -/

theorem parseInts_ok {ts : List Token} (h : tokensOk ts = true) :
    parseInts ts = .ok (idsOf ts) := by
  induction ts with
  | nil => rfl
  | cons t ts ih =>
    cases t with
    | none => simp [tokensOk] at h
    | some n =>
      have hts : tokensOk ts = true := by
        simpa [tokensOk] using h
      simp [parseInts, idsOf, ih hts, List.filterMap_cons]

theorem parseInts_err {ts : List Token} (h : tokensOk ts = false) :
    parseInts ts = .error .valueError := by
  induction ts with
  | nil => simp [tokensOk] at h
  | cons t ts ih =>
    cases t with
    | none => rfl
    | some n =>
      have hts : tokensOk ts = false := by
        simpa [tokensOk] using h
      simp [parseInts, ih hts]

theorem mapE_ok {f : α → Except Err β} {l : List α} (g : α → β)
    (h : ∀ a ∈ l, f a = .ok (g a)) : mapE f l = .ok (l.map g) := by
  induction l with
  | nil => rfl
  | cons a t ih =>
    have ha := h a (by simp)
    have ht := ih (fun x hx => h x (by simp [hx]))
    simp [mapE, ha, ht]

theorem mapE_err {f : α → Except Err β} {l : List α}
    (hall : ∀ a ∈ l, (∃ b, f a = .ok b) ∨ f a = .error .valueError)
    (hex : ∃ a ∈ l, f a = .error .valueError) :
    mapE f l = .error .valueError := by
  induction l with
  | nil => simp at hex
  | cons a t ih =>
    rcases hall a (by simp) with ⟨b, hb⟩ | ha
    · have hta : ∃ x ∈ t, f x = .error .valueError := by
        rcases hex with ⟨x, hx, hfx⟩
        rcases List.mem_cons.mp hx with rfl | hxt
        · rw [hfx] at hb; cases hb
        · exact ⟨x, hxt, hfx⟩
      have := ih (fun x hx => hall x (by simp [hx])) hta
      simp [mapE, hb, this]
    · simp [mapE, ha]

theorem zipWith_map_same {f : β → γ → δ} {g : α → β} {k : α → γ}
    (l : List α) :
    List.zipWith f (l.map g) (l.map k) = l.map (fun x => f (g x) (k x)) := by
  induction l with
  | nil => rfl
  | cons a t ih => simp [ih]

theorem assemble_map {l : List α} (f1 : α → Int) (f2 f3 f4 : α → Rat)
    (f5 : α → Int) (f6 f7 f8 : α → Rat) :
    assemble (l.map f1) (l.map f2) (l.map f3) (l.map f4) (l.map f5)
      (l.map f6) (l.map f7) (l.map f8) =
    l.map (fun x => ⟨f1 x, f2 x, f3 x, f4 x, f5 x, f6 x, f7 x, f8 x⟩) := by
  induction l with
  | nil => rfl
  | cons a t ih => simp [assemble, ih]

/-! ### Pure per-request column values (the loop bodies, with parsing
already known to succeed) -/

/-- `delay` of one request. -/
def delayQ (q : Request) : Rat := ((q.hour_end - q.hour_start : Int) : Rat)

/-- The three history statistics of one request. -/
def histQ (history : List Event) (q : Request) : HistInfoRow :=
  let ids := idsOf q.user_ids
  let E := sliceFor history ids q.hour_start
  { history_cpm_mean := cpmMean E
    adv_shown_freq := advShownFreq E ids
    avg_time_between_ads := avgTimeBetweenAds E ids }

/-- The session statistic of one request. -/
def sessQ (history : List Event) (q : Request) : Rat :=
  avgSessionDuration (sliceFor history (idsOf q.user_ids) q.hour_start)

/-- `p1` of one request. -/
def p1Q (q : Request) : Int := if 1 ∈ idsOf q.publishers then 1 else 0

/-- `p2` of one request. -/
def p2Q (q : Request) : Int := if 2 ∈ idsOf q.publishers then 1 else 0

/-- A request whose two delimited cells both parse. -/
def Request.wf (q : Request) : Prop :=
  tokensOk q.user_ids = true ∧ tokensOk q.publishers = true

instance (q : Request) : Decidable q.wf := by
  unfold Request.wf; infer_instance

theorem historyInfoRow_ok {history : List Event} {q : Request}
    (h : tokensOk q.user_ids = true) :
    historyInfoRow history q.row = .ok (histQ history q) := by
  simp [historyInfoRow, Request.row, parseInts_ok h, histQ]

theorem sessionInfoRow_ok {history : List Event} {q : Request}
    (h : tokensOk q.user_ids = true) :
    sessionInfoRow history q.row = .ok (sessQ history q) := by
  simp [sessionInfoRow, Request.row, parseInts_ok h, sessQ]

theorem p1Row_ok {q : Request} (h : tokensOk q.publishers = true) :
    p1Row q.row = .ok (p1Q q) := by
  simp [p1Row, Request.row, parseInts_ok h, p1Q]

theorem p2Row_ok {q : Request} (h : tokensOk q.publishers = true) :
    p2Row q.row = .ok (p2Q q) := by
  simp [p2Row, Request.row, parseInts_ok h, p2Q]

/-- The state of the dataframe after a successful `get_all_features` on a
fresh request batch: the four computed columns have been written back. -/
def processedDF (history : List Event) (reqs : List Request) : DataFrame where
  rows := reqs.map Request.row
  cpm := some (reqs.map (·.cpm))
  delay := some (reqs.map delayQ)
  avg_session_duration := some (reqs.map (sessQ history))
  history_cpm_mean := some (reqs.map (fun q => (histQ history q).history_cpm_mean))
  adv_shown_freq := some (reqs.map (fun q => (histQ history q).adv_shown_freq))

theorem requestFV_eq (history : List Event) (q : Request) :
    requestFV history q =
      ⟨p1Q q,
       max 0 (delayQ q - (histQ history q).avg_time_between_ads),
       delayQ q, q.cpm, p2Q q, sessQ history q,
       (histQ history q).history_cpm_mean,
       (histQ history q).adv_shown_freq⟩ := by
  rfl

/-- Bridge lemma: on a fresh, fully well-formed batch the whole pipeline
succeeds, produces one `requestFV` per request in order, and leaves the
dataframe with the four computed columns cached. -/
theorem get_all_features_fresh {history : List Event} {reqs : List Request}
    (hwf : ∀ q ∈ reqs, q.wf) :
    get_all_features history (DataFrame.fromRequests reqs) =
      (.ok (reqs.map (requestFV history)), processedDF history reqs) := by
  have hp1 : get_p1 (reqs.map Request.row) = .ok (reqs.map p1Q) := by
    have := mapE_ok (f := p1Row) (l := reqs.map Request.row)
      (g := fun r => if 1 ∈ idsOf r.publishers then 1 else 0)
      (by
        intro r hr
        rcases List.mem_map.mp hr with ⟨q, hq, rfl⟩
        simpa [p1Q] using p1Row_ok (hwf q hq).2)
    rw [get_p1, this, List.map_map]
    rfl
  have hp2 : get_p2 (reqs.map Request.row) = .ok (reqs.map p2Q) := by
    have := mapE_ok (f := p2Row) (l := reqs.map Request.row)
      (g := fun r => if 2 ∈ idsOf r.publishers then 1 else 0)
      (by
        intro r hr
        rcases List.mem_map.mp hr with ⟨q, hq, rfl⟩
        simpa [p2Q] using p2Row_ok (hwf q hq).2)
    rw [get_p2, this, List.map_map]
    rfl
  have hhi : get_history_info history (reqs.map Request.row) =
      .ok (reqs.map (histQ history)) := by
    have := mapE_ok (f := historyInfoRow history) (l := reqs.map Request.row)
      (g := fun r =>
        let ids := idsOf r.user_ids
        let E := sliceFor history ids r.hour_start
        ⟨cpmMean E, advShownFreq E ids, avgTimeBetweenAds E ids⟩)
      (by
        intro r hr
        rcases List.mem_map.mp hr with ⟨q, hq, rfl⟩
        simpa [histQ] using historyInfoRow_ok (hwf q hq).1)
    rw [get_history_info, this, List.map_map]
    rfl
  have hsi : get_session_info history (reqs.map Request.row) =
      .ok (reqs.map (sessQ history)) := by
    have := mapE_ok (f := sessionInfoRow history) (l := reqs.map Request.row)
      (g := fun r => avgSessionDuration
        (sliceFor history (idsOf r.user_ids) r.hour_start))
      (by
        intro r hr
        rcases List.mem_map.mp hr with ⟨q, hq, rfl⟩
        simpa [sessQ] using sessionInfoRow_ok (hwf q hq).1)
    rw [get_session_info, this, List.map_map]
    rfl
  have hdl : (reqs.map Request.row).map
      (fun r => ((r.hour_end - r.hour_start : Int) : Rat)) =
      reqs.map delayQ := by
    rw [List.map_map]; rfl
  have hhcm : (reqs.map (histQ history)).map (·.history_cpm_mean) =
      reqs.map (fun q => (histQ history q).history_cpm_mean) := by
    rw [List.map_map]; rfl
  have hasf : (reqs.map (histQ history)).map (·.adv_shown_freq) =
      reqs.map (fun q => (histQ history q).adv_shown_freq) := by
    rw [List.map_map]; rfl
  simp only [get_all_features, DataFrame.fromRequests, hp1, hp2, hhi, hsi,
    get_remaining_time_to_next_ad, get_delay, get_cpm,
    get_avg_session_duration, get_history_cpm_mean, get_adv_shown_freq,
    hdl, hhcm, hasf, zipWith_map_same]
  rw [assemble_map]
  rfl

/-! ### Slice decomposition (for the no-lookahead property) -/

theorem sliceFor_decompose (h : List Event) (ids : List Int) (hs : Int) :
    sliceFor h ids hs =
      (h.filter (fun e => decide (e.hour < hs))).filter
        (fun e => decide (e.user_id ∈ ids)) := by
  induction h with
  | nil => rfl
  | cons e t ih =>
    by_cases h1 : e.hour < hs <;> by_cases h2 : e.user_id ∈ ids <;>
      simp only [sliceFor, List.filter_cons, decide_eq_true_eq, h1, h2,
        if_true, if_false, Bool.and_true, Bool.and_false, Bool.true_and,
        Bool.false_and, ite_true, ite_false] <;>
      simpa [sliceFor] using ih

/-! ### Claim theorems -/

/-- C3: the computed feature vector of a request depends only on the
historical events with `hour < hour_start`: two histories that agree on
that initial-time slice give identical feature vectors (no lookahead). -/
theorem C3_no_lookahead (h1 h2 : List Event) (q : Request)
    (hagree : h1.filter (fun e => decide (e.hour < q.hour_start)) =
              h2.filter (fun e => decide (e.hour < q.hour_start))) :
    requestFV h1 q = requestFV h2 q := by
  have hs : sliceFor h1 (idsOf q.user_ids) q.hour_start =
      sliceFor h2 (idsOf q.user_ids) q.hour_start := by
    rw [sliceFor_decompose, sliceFor_decompose, hagree]
  simp only [requestFV, hs]

/-- Witness for C3: a history holding only an event at hour 5 (at or
after `hour_start = 3`) yields the same features as the empty history. -/
theorem C3_no_lookahead_witness :
    (([⟨1, 5, 1, 10⟩] : List Event).filter (fun e => decide (e.hour < 3)) =
      ([] : List Event).filter (fun e => decide (e.hour < 3)))
    ∧ requestFV [⟨1, 5, 1, 10⟩] ⟨25, 3, 7, [some 1], 4, [some 1]⟩ =
      requestFV [] ⟨25, 3, 7, [some 1], 4, [some 1]⟩ :=
  ⟨by decide, C3_no_lookahead _ _ _ (by decide)⟩

/-- C4: `remaining_time_to_next_ad` equals
`max 0 (delay - avg_time_between_ads)` and is never negative, for every
request (including requests with `hour_end < hour_start`). -/
theorem C4_remaining_time_clipped (history : List Event) (q : Request) :
    (requestFV history q).remaining_time_to_next_ad =
      max 0 ((requestFV history q).delay -
        avgTimeBetweenAds (sliceFor history (idsOf q.user_ids) q.hour_start)
          (idsOf q.user_ids))
    ∧ 0 ≤ (requestFV history q).remaining_time_to_next_ad :=
  ⟨rfl, le_max_left 0 _⟩

/-- C5: with an empty filtered history slice, the four history statistics
all default to 0, nothing faults, and (since the request schema demands
`hour_start ≤ hour_end`) `remaining_time_to_next_ad = delay`. -/
theorem C5_empty_slice_defaults (history : List Event) (q : Request)
    (hE : sliceFor history (idsOf q.user_ids) q.hour_start = [])
    (hhe : q.hour_start ≤ q.hour_end) :
    (requestFV history q).history_cpm_mean = 0
    ∧ (requestFV history q).adv_shown_freq = 0
    ∧ avgTimeBetweenAds (sliceFor history (idsOf q.user_ids) q.hour_start)
        (idsOf q.user_ids) = 0
    ∧ (requestFV history q).avg_session_duration = 0
    ∧ (requestFV history q).remaining_time_to_next_ad =
        (requestFV history q).delay := by
  have hd : (0 : Rat) ≤ ((q.hour_end - q.hour_start : Int) : Rat) := by
    have : (0 : Int) ≤ q.hour_end - q.hour_start := by omega
    exact_mod_cast this
  have hz : avgTimeBetweenAds ([] : List Event) (idsOf q.user_ids) = 0 := by
    simp [avgTimeBetweenAds, avgTimeBetweenAdsNum, usersOf, sortInts]
  refine ⟨?_, ?_, ?_, ?_, ?_⟩
  · simp [requestFV, hE, cpmMean]
  · simp [requestFV, hE, advShownFreq]
  · rw [hE]; exact hz
  · simp [requestFV, hE, avgSessionDuration, totalSessionStats, usersOf,
      sortInts]
  · simp only [requestFV, hE, hz, sub_zero]
    exact max_eq_right hd

/-- Witness for C5: a one-user cohort with no history at all. -/
theorem C5_empty_slice_defaults_witness :
    (sliceFor [] (idsOf [some 1]) 0 = [] ∧ (0 : Int) ≤ 5)
    ∧ ((requestFV [] ⟨25, 0, 5, [some 1], 4, [some 1]⟩).history_cpm_mean = 0
      ∧ (requestFV [] ⟨25, 0, 5, [some 1], 4, [some 1]⟩).adv_shown_freq = 0
      ∧ avgTimeBetweenAds (sliceFor [] (idsOf [some 1]) 0) (idsOf [some 1]) = 0
      ∧ (requestFV [] ⟨25, 0, 5, [some 1], 4, [some 1]⟩).avg_session_duration = 0
      ∧ (requestFV [] ⟨25, 0, 5, [some 1], 4, [some 1]⟩).remaining_time_to_next_ad =
          (requestFV [] ⟨25, 0, 5, [some 1], 4, [some 1]⟩).delay) :=
  ⟨⟨by decide, by decide⟩,
   C5_empty_slice_defaults [] ⟨25, 0, 5, [some 1], 4, [some 1]⟩ (by decide)
     (by decide)⟩

/-- C7: the session loop opens a new session exactly when the next hour is
more than 6 units past the most recent hour of the current session, a
session's duration is its max hour minus its min hour, and on hours
`[1, 2, 3, 10, 11, 20]` the sessions are `[1,2,3]`, `[10,11]`, `[20]` with
durations 2, 1, 0 and average session duration 1. -/
theorem C7_session_segmentation :
    (∀ (c : List Int) (l h : Int) (rest : List Int),
      splitSessions (l :: c) (h :: rest) =
        if 6 < h - l then (l :: c).reverse :: splitSessions [h] rest
        else splitSessions (h :: l :: c) rest)
    ∧ (∀ s : List Int, sessionDuration s = listMax s - listMin s)
    ∧ sessionsOf [1, 2, 3, 10, 11, 20] = [[1, 2, 3], [10, 11], [20]]
    ∧ (sessionsOf [1, 2, 3, 10, 11, 20]).map sessionDuration = [2, 1, 0]
    ∧ avgSessionDuration
        [⟨1, 1, 7, 10⟩, ⟨1, 2, 7, 10⟩, ⟨1, 3, 7, 10⟩, ⟨1, 10, 7, 10⟩,
         ⟨1, 11, 7, 10⟩, ⟨1, 20, 7, 10⟩] = 1 := by
  refine ⟨fun c l h rest => rfl, fun s => rfl, by decide, by decide, ?_⟩
  have hst : totalSessionStats
      [⟨1, 1, 7, 10⟩, ⟨1, 2, 7, 10⟩, ⟨1, 3, 7, 10⟩, ⟨1, 10, 7, 10⟩,
       ⟨1, 11, 7, 10⟩, ⟨1, 20, 7, 10⟩] = (3, 3) := by decide
  rw [avgSessionDuration, hst]
  norm_num

/-- The per-user inter-ad contribution: users with at least two distinct
hours contribute the mean of their consecutive gaps, the others 0. -/
def userGapContribution (E : List Event) (u : Int) : Rat :=
  let hs := uniqueSortedHours E u
  if 1 < hs.length then meanGaps hs else 0

/-- Per the spec's words for `avg_time_between_ads`: sum the per-user
contributions over the (deduplicated) cohort, then divide by `|user_ids|`. -/
def avgTimeBetweenAdsSpec (E : List Event) (ids : List Int) : Rat :=
  ((ids.dedup).map (userGapContribution E)).sum / (ids.length : Rat)

theorem usersOf_mem {E : List Event} {u : Int} :
    u ∈ usersOf E ↔ u ∈ E.map (·.user_id) := by
  unfold usersOf sortInts
  rw [List.Perm.mem_iff (List.perm_insertionSort _ _)]
  exact List.mem_dedup

theorem userGapContribution_eq_zero {E : List Event} {u : Int}
    (h : u ∉ E.map (·.user_id)) : userGapContribution E u = 0 := by
  have he : eventsOfUser E u = [] := by
    rw [eventsOfUser, List.filter_eq_nil_iff]
    intro e heE
    simp only [decide_eq_true_eq]
    intro rfl'
    exact h (List.mem_map.mpr ⟨e, heE, rfl'⟩)
  simp [userGapContribution, uniqueSortedHours, he, sortInts]

theorem sum_userGapContribution {history : List Event} {ids : List Int}
    (hs : Int) :
    ((usersOf (sliceFor history ids hs)).map
        (userGapContribution (sliceFor history ids hs))).sum =
      ((ids.dedup).map (userGapContribution (sliceFor history ids hs))).sum := by
  set E := sliceFor history ids hs with hEdef
  have hperm : List.Perm ((usersOf E).map (userGapContribution E))
      (((E.map (·.user_id)).dedup).map (userGapContribution E)) :=
    List.Perm.map _ (List.perm_insertionSort _ _)
  rw [hperm.sum_eq]
  have n1 : (E.map (·.user_id)).dedup.Nodup := List.nodup_dedup _
  have n2 : ids.dedup.Nodup := List.nodup_dedup _
  rw [← List.sum_toFinset _ n1, ← List.sum_toFinset _ n2]
  apply Finset.sum_subset
  · intro u hu
    rw [List.mem_toFinset, List.mem_dedup] at hu ⊢
    rcases List.mem_map.mp hu with ⟨e, heE, rfl⟩
    have := List.of_mem_filter (p := fun (e : Event) =>
      decide (e.user_id ∈ ids) && decide (e.hour < hs)) heE
    simp only [Bool.and_eq_true, decide_eq_true_eq] at this
    exact this.1
  · intro u _ hu
    rw [List.mem_toFinset, List.mem_dedup] at hu
    exact userGapContribution_eq_zero hu

/-- C8: `avg_time_between_ads` is the sum, over the distinct users of the
cohort, of the mean consecutive gap of each user's sorted distinct hours
(users with fewer than two distinct hours contributing 0), divided by the
length of the parsed `user_ids` list; on hours `[1, 3, 3, 7]` of one user
with a cohort of size 2 it is `3/2`. -/
theorem C8_avg_time_between_ads (history : List Event) (ids : List Int)
    (hs : Int) (hne : ids ≠ []) :
    avgTimeBetweenAds (sliceFor history ids hs) ids =
      avgTimeBetweenAdsSpec (sliceFor history ids hs) ids
    ∧ avgTimeBetweenAds [⟨1, 1, 7, 10⟩, ⟨1, 3, 7, 10⟩, ⟨1, 3, 7, 10⟩,
        ⟨1, 7, 7, 10⟩] [1, 2] = 3 / 2 := by
  constructor
  · have hlen : 0 < ids.length := List.length_pos.mpr hne
    rw [avgTimeBetweenAds, avgTimeBetweenAdsSpec, if_pos hlen,
      avgTimeBetweenAdsNum]
    rw [show (fun u =>
        let hsu := uniqueSortedHours (sliceFor history ids hs) u
        if 1 < hsu.length then meanGaps hsu else 0) =
        userGapContribution (sliceFor history ids hs) from rfl]
    rw [sum_userGapContribution]
  · have h1 : usersOf [(⟨1, 1, 7, 10⟩ : Event), ⟨1, 3, 7, 10⟩, ⟨1, 3, 7, 10⟩,
        ⟨1, 7, 7, 10⟩] = [1] := by decide
    have h2 : uniqueSortedHours [(⟨1, 1, 7, 10⟩ : Event), ⟨1, 3, 7, 10⟩,
        ⟨1, 3, 7, 10⟩, ⟨1, 7, 7, 10⟩] 1 = [1, 3, 7] := by decide
    rw [avgTimeBetweenAds, avgTimeBetweenAdsNum, h1]
    simp only [List.map_cons, List.map_nil, h2, List.sum_cons, List.sum_nil]
    norm_num [meanGaps, gaps]

/-- Witness for C8: the cohort `[1, 2]` is nonempty and the `3/2` example
holds for it. -/
theorem C8_avg_time_between_ads_witness :
    ([1, 2] : List Int) ≠ [] ∧
      avgTimeBetweenAds [⟨1, 1, 7, 10⟩, ⟨1, 3, 7, 10⟩, ⟨1, 3, 7, 10⟩,
        ⟨1, 7, 7, 10⟩] [1, 2] = 3 / 2 :=
  ⟨by decide, (C8_avg_time_between_ads [] [1, 2] 0 (by decide)).2⟩

/-- C2 counterexample: with one matching historical event, duplicating the
single user id in the `user_ids` cell halves `adv_shown_freq` (the code
divides by the length of the parsed list, not the cohort's set
cardinality). -/
theorem C2_counterexample :
    (requestFV [⟨1, 0, 7, 10⟩]
        ⟨25, 1, 2, [some 7], 4, [some 1, some 1]⟩).adv_shown_freq = 1 / 2
    ∧ (requestFV [⟨1, 0, 7, 10⟩]
        ⟨25, 1, 2, [some 7], 4, [some 1]⟩).adv_shown_freq = 1 := by
  have h1 : idsOf [some 1, some 1] = [1, 1] := by decide
  have h2 : idsOf [some 1] = [1] := by decide
  have hE1 : sliceFor [⟨1, 0, 7, 10⟩] [1, 1] 1 = [⟨1, 0, 7, 10⟩] := by decide
  have hE2 : sliceFor [⟨1, 0, 7, 10⟩] [1] 1 = [⟨1, 0, 7, 10⟩] := by decide
  constructor
  · show advShownFreq (sliceFor [⟨1, 0, 7, 10⟩] (idsOf [some 1, some 1]) 1)
      (idsOf [some 1, some 1]) = 1 / 2
    rw [h1, hE1, advShownFreq]
    norm_num
  · show advShownFreq (sliceFor [⟨1, 0, 7, 10⟩] (idsOf [some 1]) 1)
      (idsOf [some 1]) = 1
    rw [h2, hE2, advShownFreq]
    norm_num

/-- C2 (amended): duplicates in the parsed `user_ids` list leave the
filtered slice `E` unchanged (membership filtering), but the denominators
of `adv_shown_freq` and `avg_time_between_ads` are the length of the
parsed list with duplicates counted, not the set cardinality. -/
theorem C2_freq_denominators (history : List Event) (ids : List Int)
    (hs : Int) (hne : ids ≠ []) :
    sliceFor history ids.dedup hs = sliceFor history ids hs
    ∧ advShownFreq (sliceFor history ids hs) ids =
        ((sliceFor history ids hs).length : Rat) / (ids.length : Rat)
    ∧ avgTimeBetweenAds (sliceFor history ids hs) ids =
        avgTimeBetweenAdsNum (sliceFor history ids hs) / (ids.length : Rat) := by
  have hlen : 0 < ids.length := List.length_pos.mpr hne
  refine ⟨?_, ?_, ?_⟩
  · apply List.filter_congr
    intro e _
    simp [List.mem_dedup]
  · rw [advShownFreq, if_pos hlen]
  · rw [avgTimeBetweenAds, if_pos hlen]

/-- Witness for C2's amended statement at a concrete cohort. -/
theorem C2_freq_denominators_witness :
    ([1, 1] : List Int) ≠ []
    ∧ (sliceFor [⟨1, 0, 7, 10⟩] ([1, 1] : List Int).dedup 1 =
        sliceFor [⟨1, 0, 7, 10⟩] [1, 1] 1
      ∧ advShownFreq (sliceFor [⟨1, 0, 7, 10⟩] [1, 1] 1) [1, 1] =
          ((sliceFor [⟨1, 0, 7, 10⟩] [1, 1] 1).length : Rat) /
            (([1, 1] : List Int).length : Rat)
      ∧ avgTimeBetweenAds (sliceFor [⟨1, 0, 7, 10⟩] [1, 1] 1) [1, 1] =
          avgTimeBetweenAdsNum (sliceFor [⟨1, 0, 7, 10⟩] [1, 1] 1) /
            (([1, 1] : List Int).length : Rat)) :=
  ⟨by decide, C2_freq_denominators [⟨1, 0, 7, 10⟩] [1, 1] 1 (by decide)⟩

/-! ### Case lemmas for abortive parsing -/

theorem parseInts_cases (ts : List Token) :
    parseInts ts = .ok (idsOf ts) ∨ parseInts ts = .error .valueError := by
  cases h : tokensOk ts with
  | true => exact Or.inl (parseInts_ok h)
  | false => exact Or.inr (parseInts_err h)

theorem p1Row_cases (r : Row) :
    (∃ b, p1Row r = .ok b) ∨ p1Row r = .error .valueError := by
  rcases parseInts_cases r.publishers with h | h
  · exact Or.inl ⟨if 1 ∈ idsOf r.publishers then 1 else 0, by simp [p1Row, h]⟩
  · exact Or.inr (by simp [p1Row, h])

theorem historyInfoRow_cases (history : List Event) (r : Row) :
    (∃ b, historyInfoRow history r = .ok b)
    ∨ historyInfoRow history r = .error .valueError := by
  rcases parseInts_cases r.user_ids with h | h
  · refine Or.inl ⟨⟨cpmMean (sliceFor history (idsOf r.user_ids) r.hour_start),
      advShownFreq (sliceFor history (idsOf r.user_ids) r.hour_start)
        (idsOf r.user_ids),
      avgTimeBetweenAds (sliceFor history (idsOf r.user_ids) r.hour_start)
        (idsOf r.user_ids)⟩, by simp [historyInfoRow, h]⟩
  · exact Or.inr (by simp [historyInfoRow, h])

/-- C1 counterexample: a malformed `user_ids` token in the second request
makes the whole batch return a single `ValueError` — the first request's
feature vector is not reported at its index, the entire call aborts (the
same first request alone succeeds). -/
theorem C1_counterexample :
    (get_all_features [] (DataFrame.fromRequests
        [⟨25, 1, 2, [some 7], 4, [some 1]⟩,
         ⟨25, 1, 2, [some 7], 4, [none]⟩])).1 = .error .valueError
    ∧ (get_all_features [] (DataFrame.fromRequests
        [⟨25, 1, 2, [some 7], 4, [some 1]⟩])).1 =
      .ok [requestFV [] ⟨25, 1, 2, [some 7], 4, [some 1]⟩] := by
  constructor
  · rfl
  · rw [get_all_features_fresh (by decide)]
    rfl

/-- C1 (amended): when every request in the batch parses, the batch call
returns exactly one feature vector per request, in input order; but a
parsing error in any request aborts the whole batch with one
`ValueError` (errors are not isolated to the failing index). -/
theorem C1_batch_order (history : List Event) (reqs : List Request) :
    ((∀ q ∈ reqs, q.wf) →
      (get_all_features history (DataFrame.fromRequests reqs)).1 =
        .ok (reqs.map (requestFV history))
      ∧ (reqs.map (requestFV history)).length = reqs.length)
    ∧ ((∃ q ∈ reqs, ¬ q.wf) →
      (get_all_features history (DataFrame.fromRequests reqs)).1 =
        .error .valueError) := by
  constructor
  · intro hwf
    exact ⟨by rw [get_all_features_fresh hwf], List.length_map _ _⟩
  · rintro ⟨q, hq, hbad⟩
    rw [Request.wf, not_and_or, Bool.not_eq_true, Bool.not_eq_true] at hbad
    by_cases hpubs : ∀ p ∈ reqs, tokensOk p.publishers = true
    · -- all publisher cells parse, so the bad token is in `user_ids`
      have huid : tokensOk q.user_ids = false := by
        rcases hbad with h | h
        · exact h
        · rw [hpubs q hq] at h; cases h
      have hp1 : get_p1 (reqs.map Request.row) =
          .ok (reqs.map (fun p => p1Q p)) := by
        have := mapE_ok (f := p1Row) (l := reqs.map Request.row)
          (g := fun r => if 1 ∈ idsOf r.publishers then 1 else 0)
          (by
            intro r hr
            rcases List.mem_map.mp hr with ⟨p, hp, rfl⟩
            simpa [p1Q] using p1Row_ok (hpubs p hp))
        rw [get_p1, this, List.map_map]
        rfl
      have hhi : get_history_info history (reqs.map Request.row) =
          .error .valueError := by
        apply mapE_err
        · intro r _
          exact historyInfoRow_cases history r
        · refine ⟨q.row, List.mem_map.mpr ⟨q, hq, rfl⟩, ?_⟩
          simp [historyInfoRow, Request.row, parseInts_err huid]
      simp [get_all_features, DataFrame.fromRequests,
        get_remaining_time_to_next_ad, get_delay, hp1, hhi]
    · -- some publisher cell fails to parse: `get_p1` already raises
      have hp1 : get_p1 (reqs.map Request.row) = .error .valueError := by
        apply mapE_err
        · intro r _
          exact p1Row_cases r
        · push_neg at hpubs
          rcases hpubs with ⟨p, hp, hbadp⟩
          refine ⟨p.row, List.mem_map.mpr ⟨p, hp, rfl⟩, ?_⟩
          simp only [ne_eq, Bool.not_eq_true] at hbadp
          simp [p1Row, Request.row, parseInts_err hbadp]
      simp [get_all_features, DataFrame.fromRequests, hp1]

/-- Witness for C1: a well-formed singleton batch satisfies the success
branch of the amended statement. -/
theorem C1_batch_order_witness :
    (∀ q ∈ [(⟨25, 1, 2, [some 7], 4, [some 1]⟩ : Request)], q.wf)
    ∧ ((get_all_features [] (DataFrame.fromRequests
          [(⟨25, 1, 2, [some 7], 4, [some 1]⟩ : Request)])).1 =
        .ok ([(⟨25, 1, 2, [some 7], 4, [some 1]⟩ : Request)].map
          (requestFV []))
      ∧ ([(⟨25, 1, 2, [some 7], 4, [some 1]⟩ : Request)].map
          (requestFV [])).length = 1) :=
  ⟨by decide,
   (C1_batch_order [] [⟨25, 1, 2, [some 7], 4, [some 1]⟩]).1 (by decide)⟩

/-! ### Row-level success lemmas -/

theorem p1Row_ok2 {r : Row} (h : tokensOk r.publishers = true) :
    p1Row r = .ok (if 1 ∈ idsOf r.publishers then 1 else 0) := by
  simp [p1Row, parseInts_ok h]

theorem p2Row_ok2 {r : Row} (h : tokensOk r.publishers = true) :
    p2Row r = .ok (if 2 ∈ idsOf r.publishers then 1 else 0) := by
  simp [p2Row, parseInts_ok h]

theorem historyInfoRow_ok2 {history : List Event} {r : Row}
    (h : tokensOk r.user_ids = true) :
    historyInfoRow history r = .ok
      ⟨cpmMean (sliceFor history (idsOf r.user_ids) r.hour_start),
       advShownFreq (sliceFor history (idsOf r.user_ids) r.hour_start)
         (idsOf r.user_ids),
       avgTimeBetweenAds (sliceFor history (idsOf r.user_ids) r.hour_start)
         (idsOf r.user_ids)⟩ := by
  simp [historyInfoRow, parseInts_ok h]

theorem sessionInfoRow_ok2 {history : List Event} {r : Row}
    (h : tokensOk r.user_ids = true) :
    sessionInfoRow history r = .ok
      (avgSessionDuration
        (sliceFor history (idsOf r.user_ids) r.hour_start)) := by
  simp [sessionInfoRow, parseInts_ok h]

/-- C6: on a dataframe whose delimited cells all parse, feature assembly
raises the missing-column `KeyError` exactly when the `cpm` column is
absent; whenever `cpm` is present the whole assembly resolves to a value. -/
theorem C6_missing_cpm (history : List Event) (df : DataFrame)
    (hwf : ∀ r ∈ df.rows,
      tokensOk r.user_ids = true ∧ tokensOk r.publishers = true) :
    ((get_all_features history df).1 = .error .keyError ↔ df.cpm = none)
    ∧ (∀ c, df.cpm = some c →
        ∃ fvs, (get_all_features history df).1 = .ok fvs) := by
  obtain ⟨rows, cpmc, delayc, asdc, hcmc, asfc⟩ := df
  simp only at hwf
  have hp1 : get_p1 rows =
      .ok (rows.map fun r => if 1 ∈ idsOf r.publishers then 1 else 0) :=
    mapE_ok _ (fun r hr => p1Row_ok2 (hwf r hr).2)
  have hp2 : get_p2 rows =
      .ok (rows.map fun r => if 2 ∈ idsOf r.publishers then 1 else 0) :=
    mapE_ok _ (fun r hr => p2Row_ok2 (hwf r hr).2)
  have hhi : get_history_info history rows = .ok (rows.map fun r =>
      (⟨cpmMean (sliceFor history (idsOf r.user_ids) r.hour_start),
        advShownFreq (sliceFor history (idsOf r.user_ids) r.hour_start)
          (idsOf r.user_ids),
        avgTimeBetweenAds (sliceFor history (idsOf r.user_ids) r.hour_start)
          (idsOf r.user_ids)⟩ : HistInfoRow)) :=
    mapE_ok _ (fun r hr => historyInfoRow_ok2 (hwf r hr).1)
  have hsi : get_session_info history rows = .ok (rows.map fun r =>
      avgSessionDuration (sliceFor history (idsOf r.user_ids) r.hour_start)) :=
    mapE_ok _ (fun r hr => sessionInfoRow_ok2 (hwf r hr).1)
  rcases delayc with _ | dc <;> rcases cpmc with _ | cc <;>
    rcases asdc with _ | ac <;> rcases hcmc with _ | hc <;>
    rcases asfc with _ | fc <;>
    simp [get_all_features, get_remaining_time_to_next_ad, get_delay,
      get_cpm, get_avg_session_duration, get_history_cpm_mean,
      get_adv_shown_freq, hp1, hp2, hhi, hsi]

/-- Witness for C6: a well-formed single-request dataframe with `cpm`
present does not raise and produces a value. -/
theorem C6_missing_cpm_witness :
    (∀ r ∈ (DataFrame.fromRequests
        [(⟨25, 1, 2, [some 7], 4, [some 1]⟩ : Request)]).rows,
      tokensOk r.user_ids = true ∧ tokensOk r.publishers = true)
    ∧ (((get_all_features [] (DataFrame.fromRequests
          [(⟨25, 1, 2, [some 7], 4, [some 1]⟩ : Request)])).1 =
            .error .keyError ↔
        (DataFrame.fromRequests
          [(⟨25, 1, 2, [some 7], 4, [some 1]⟩ : Request)]).cpm = none)
      ∧ (∀ c, (DataFrame.fromRequests
            [(⟨25, 1, 2, [some 7], 4, [some 1]⟩ : Request)]).cpm = some c →
          ∃ fvs, (get_all_features [] (DataFrame.fromRequests
            [(⟨25, 1, 2, [some 7], 4, [some 1]⟩ : Request)])).1 = .ok fvs)) :=
  ⟨by decide,
   C6_missing_cpm [] (DataFrame.fromRequests
     [⟨25, 1, 2, [some 7], 4, [some 1]⟩]) (by decide)⟩

/-- C10: `get_all_features` writes the computed `delay`,
`avg_session_duration`, `history_cpm_mean` and `adv_shown_freq` columns
back onto its input dataframe, and pre-existing columns with those names
override recomputation: a caller-supplied `delay` value `v1` is returned
as the delay feature (and feeds `remaining_time_to_next_ad`) instead of
`hour_end - hour_start`, and likewise `v2`, `v3`, `v4` for the other
three columns. -/
theorem C10_mutation_and_override (history : List Event) (q : Request)
    (hq : q.wf) (v1 v2 v3 v4 : Rat) :
    ((get_all_features history (DataFrame.fromRequests [q])).2.delay =
        some [delayQ q]
      ∧ (get_all_features history
          (DataFrame.fromRequests [q])).2.avg_session_duration =
        some [sessQ history q]
      ∧ (get_all_features history
          (DataFrame.fromRequests [q])).2.history_cpm_mean =
        some [(histQ history q).history_cpm_mean]
      ∧ (get_all_features history
          (DataFrame.fromRequests [q])).2.adv_shown_freq =
        some [(histQ history q).adv_shown_freq])
    ∧ (get_all_features history
        ⟨[q.row], some [q.cpm], some [v1], some [v2], some [v3], some [v4]⟩).1 =
      .ok [⟨p1Q q, max 0 (v1 - (histQ history q).avg_time_between_ads), v1,
        q.cpm, p2Q q, v2, v3, v4⟩] := by
  constructor
  · have h := @get_all_features_fresh history [q]
      (by intro p hp; rw [List.mem_singleton] at hp; rw [hp]; exact hq)
    rw [h]
    exact ⟨rfl, rfl, rfl, rfl⟩
  · have hp1 : p1Row q.row = .ok (p1Q q) := p1Row_ok hq.2
    have hp2 : p2Row q.row = .ok (p2Q q) := p2Row_ok hq.2
    have hhi : historyInfoRow history q.row = .ok (histQ history q) :=
      historyInfoRow_ok hq.1
    simp [get_all_features, get_remaining_time_to_next_ad, get_delay,
      get_cpm, get_avg_session_duration, get_history_cpm_mean,
      get_adv_shown_freq, get_p1, get_p2, get_history_info, mapE, assemble,
      hp1, hp2, hhi]

/-- Witness for C10 at a concrete request, history and column values. -/
theorem C10_mutation_and_override_witness :
    (⟨25, 1, 2, [some 7], 4, [some 1]⟩ : Request).wf
    ∧ (((get_all_features [] (DataFrame.fromRequests
          [(⟨25, 1, 2, [some 7], 4, [some 1]⟩ : Request)])).2.delay =
        some [delayQ ⟨25, 1, 2, [some 7], 4, [some 1]⟩]
      ∧ (get_all_features [] (DataFrame.fromRequests
          [(⟨25, 1, 2, [some 7], 4, [some 1]⟩ : Request)])).2.avg_session_duration =
        some [sessQ [] ⟨25, 1, 2, [some 7], 4, [some 1]⟩]
      ∧ (get_all_features [] (DataFrame.fromRequests
          [(⟨25, 1, 2, [some 7], 4, [some 1]⟩ : Request)])).2.history_cpm_mean =
        some [(histQ [] ⟨25, 1, 2, [some 7], 4, [some 1]⟩).history_cpm_mean]
      ∧ (get_all_features [] (DataFrame.fromRequests
          [(⟨25, 1, 2, [some 7], 4, [some 1]⟩ : Request)])).2.adv_shown_freq =
        some [(histQ [] ⟨25, 1, 2, [some 7], 4, [some 1]⟩).adv_shown_freq])
    ∧ (get_all_features []
        ⟨[(⟨25, 1, 2, [some 7], 4, [some 1]⟩ : Request).row], some [25],
          some [9], some [8], some [7], some [6]⟩).1 =
      .ok [⟨p1Q ⟨25, 1, 2, [some 7], 4, [some 1]⟩,
        max 0 (9 - (histQ [] ⟨25, 1, 2, [some 7], 4, [some 1]⟩).avg_time_between_ads),
        9, 25, p2Q ⟨25, 1, 2, [some 7], 4, [some 1]⟩, 8, 7, 6⟩]) :=
  ⟨by decide,
   C10_mutation_and_override [] ⟨25, 1, 2, [some 7], 4, [some 1]⟩
     (by decide) 9 8 7 6⟩

/-- C9: feature extraction is idempotent. A second call with an equal
fresh copy of the input returns the same result, and a second call on the
very dataframe mutated by the first call returns the identical result and
state (for any history and any input dataframe, including batches that
abort with an error). -/
theorem C9_idempotent (history : List Event) (df df2 : DataFrame) :
    (df2 = df → get_all_features history df2 = get_all_features history df)
    ∧ get_all_features history (get_all_features history df).2 =
        get_all_features history df := by
  constructor
  · intro h; rw [h]
  · obtain ⟨rows, cpmc, delayc, asdc, hcmc, asfc⟩ := df
    cases hp1 : get_p1 rows <;>
    cases hhi : get_history_info history rows <;>
    cases hp2 : get_p2 rows <;>
    cases hsi : get_session_info history rows <;>
    rcases delayc with _ | dc <;> rcases cpmc with _ | cc <;>
    rcases asdc with _ | ac <;> rcases hcmc with _ | hc <;>
    rcases asfc with _ | fc <;>
    simp [get_all_features, get_remaining_time_to_next_ad, get_delay,
      get_cpm, get_avg_session_duration, get_history_cpm_mean,
      get_adv_shown_freq, hp1, hhi, hp2, hsi]

/-- Witness for C9 at a concrete request batch and history. -/
theorem C9_idempotent_witness :
    (DataFrame.fromRequests [(⟨25, 1, 2, [some 7], 4, [some 1]⟩ : Request)] =
      DataFrame.fromRequests [(⟨25, 1, 2, [some 7], 4, [some 1]⟩ : Request)])
    ∧ get_all_features [⟨1, 0, 7, 10⟩]
        (get_all_features [⟨1, 0, 7, 10⟩] (DataFrame.fromRequests
          [(⟨25, 1, 2, [some 7], 4, [some 1]⟩ : Request)])).2 =
      get_all_features [⟨1, 0, 7, 10⟩] (DataFrame.fromRequests
        [(⟨25, 1, 2, [some 7], 4, [some 1]⟩ : Request)]) :=
  ⟨rfl,
   (C9_idempotent [⟨1, 0, 7, 10⟩]
     (DataFrame.fromRequests [⟨25, 1, 2, [some 7], 4, [some 1]⟩])
     (DataFrame.fromRequests [⟨25, 1, 2, [some 7], 4, [some 1]⟩])).2⟩

end FeatureExtractor
